import Mathlib

/-!
Verification of the `range-overlap` crate: a pure classifier for the kind of
overlap between two one-dimensional ranges.  Ranges may be closed, half-open
or fully open (an absent bound, `Option.none`, means the side is unbounded),
and the end boundary may be treated as inclusive or exclusive.

The crate is generic over any `PartialOrd` type; its own test suite
instantiates it at `i32`.  We embed the functions over `Int`, which is a
faithful instance of the totally ordered value types the crate is used with.
-/

/-- Mirror of the crate's `RangeOverlap` enum: the six possible kinds of
overlap between two ranges. -/
inductive RangeOverlap where
  | AContainsB
  | AInsideB
  | AEndsInB
  | AStartsInB
  | AEqualsB
  | None
deriving DecidableEq, Repr

namespace RangeOverlap

/-- Mirror of `RangeOverlap::has_overlap`: `true` unless the category is
`None`. -/
def has_overlap : RangeOverlap → Bool
  | RangeOverlap.None => false
  | _ => true

end RangeOverlap

/-- Mirror of `excl_classify`: classify two fully closed ranges with the ends
considered exclusive. -/
def excl_classify (a_start a_end b_start b_end : Int) : RangeOverlap :=
  if a_start = b_start ∧ a_end = b_end then
    RangeOverlap.AEqualsB
  else if a_start ≤ b_start ∧ a_end ≥ b_end then
    RangeOverlap.AContainsB
  else if a_start < b_start ∧ a_end > b_start ∧ a_end ≤ b_end then
    RangeOverlap.AEndsInB
  else if a_start > b_start ∧ a_start < b_end ∧ a_end > b_end then
    RangeOverlap.AStartsInB
  else if a_start ≥ b_end ∨ b_start ≥ a_end then
    RangeOverlap.None
  else
    RangeOverlap.AInsideB

/-- Mirror of `incl_classify`: classify two fully closed ranges with the ends
considered inclusive. -/
def incl_classify (a_start a_end b_start b_end : Int) : RangeOverlap :=
  if a_start = b_start ∧ a_end = b_end then
    RangeOverlap.AEqualsB
  else if a_start ≤ b_start ∧ a_end ≥ b_end then
    RangeOverlap.AContainsB
  else if a_start < b_start ∧ a_end ≥ b_start ∧ a_end ≤ b_end then
    RangeOverlap.AEndsInB
  else if a_start > b_start ∧ a_start ≤ b_end ∧ a_end > b_end then
    RangeOverlap.AStartsInB
  else if a_start ≥ b_end ∨ b_start ≥ a_end then
    RangeOverlap.None
  else
    RangeOverlap.AInsideB

/-- Mirror of `classify_any`: classify two ranges that may be closed,
half-open, or fully open.  `none` marks an open (unbounded) side; the final
parameter says whether `a_end` and `b_end` belong to their ranges.  The match
arms are transcribed one-for-one from the source. -/
def classify_any (a_start a_end b_start b_end : Option Int) (inclusive : Bool) :
    RangeOverlap :=
  match a_start, a_end, b_start, b_end, inclusive with
  | none, none, none, none, _ => RangeOverlap.AEqualsB
  | none, none, none, some _, _ => RangeOverlap.AContainsB
  | none, none, some _, none, _ => RangeOverlap.AContainsB
  | none, none, some _, some _, _ => RangeOverlap.AContainsB
  | none, some _, none, none, _ => RangeOverlap.AInsideB
  | none, some ea, none, some eb, _ =>
    if ea = eb then RangeOverlap.AEqualsB
    else if ea < eb then RangeOverlap.AInsideB
    else RangeOverlap.AContainsB
  | none, some ea, some sb, none, false =>
    if ea ≤ sb then RangeOverlap.None
    else RangeOverlap.AEndsInB
  | none, some ea, some sb, none, true =>
    if ea < sb then RangeOverlap.None
    else RangeOverlap.AEndsInB
  | none, some ea, some sb, some eb, false =>
    if ea ≤ sb then RangeOverlap.None
    else if ea > sb ∧ ea < eb then RangeOverlap.AEndsInB
    else RangeOverlap.AContainsB
  | none, some ea, some sb, some eb, true =>
    if ea < sb then RangeOverlap.None
    else if ea ≥ sb ∧ ea < eb then RangeOverlap.AEndsInB
    else RangeOverlap.AContainsB
  | some _, none, none, none, _ => RangeOverlap.AInsideB
  | some sa, none, none, some eb, false =>
    if sa ≥ eb then RangeOverlap.None
    else RangeOverlap.AStartsInB
  | some sa, none, none, some eb, true =>
    if sa > eb then RangeOverlap.None
    else RangeOverlap.AStartsInB
  | some sa, none, some sb, none, _ =>
    if sa = sb then RangeOverlap.AEqualsB
    else if sa < sb then RangeOverlap.AContainsB
    else RangeOverlap.AInsideB
  | some sa, none, some sb, some eb, false =>
    if sa ≤ sb then RangeOverlap.AContainsB
    else if sa < eb then RangeOverlap.AStartsInB
    else RangeOverlap.None
  | some sa, none, some sb, some eb, true =>
    if sa ≤ sb then RangeOverlap.AContainsB
    else if sa ≤ eb then RangeOverlap.AStartsInB
    else RangeOverlap.None
  | some _, some _, none, none, _ => RangeOverlap.AInsideB
  | some sa, some ea, none, some eb, false =>
    if eb ≤ sa then RangeOverlap.None
    else if ea ≤ eb then RangeOverlap.AInsideB
    else RangeOverlap.AStartsInB
  | some sa, some ea, none, some eb, true =>
    if eb < sa then RangeOverlap.None
    else if ea ≤ eb then RangeOverlap.AInsideB
    else RangeOverlap.AStartsInB
  | some sa, some ea, some sb, none, false =>
    if sb ≥ ea then RangeOverlap.None
    else if sa ≥ sb then RangeOverlap.AInsideB
    else RangeOverlap.AEndsInB
  | some sa, some ea, some sb, none, true =>
    if sb > ea then RangeOverlap.None
    else if sa ≥ sb then RangeOverlap.AInsideB
    else RangeOverlap.AEndsInB
  | some sa, some ea, some sb, some eb, false =>
    excl_classify sa ea sb eb
  | some sa, some ea, some sb, some eb, true =>
    incl_classify sa ea sb eb

/-- Mirror of `has_excl_overlap`. -/
def has_excl_overlap (a_start a_end b_start b_end : Int) : Bool :=
  (excl_classify a_start a_end b_start b_end).has_overlap

/-- Mirror of `has_incl_overlap`. -/
def has_incl_overlap (a_start a_end b_start b_end : Int) : Bool :=
  (incl_classify a_start a_end b_start b_end).has_overlap

/-- Mirror of `has_open_excl_overlap`. -/
def has_open_excl_overlap (a_start a_end b_start b_end : Option Int) : Bool :=
  (classify_any a_start a_end b_start b_end false).has_overlap

/-- Mirror of `has_open_incl_overlap`. -/
def has_open_incl_overlap (a_start a_end b_start b_end : Option Int) : Bool :=
  (classify_any a_start a_end b_start b_end true).has_overlap

/-- Well-formedness of one possibly open range: when both bounds are finite,
the start does not exceed the end. -/
def WellFormed : Option Int → Option Int → Prop
  | some s, some e => s ≤ e
  | _, _ => True

/-- Strict well-formedness of one possibly open range: when both bounds are
finite, the start is strictly below the end (the range is non-degenerate). -/
def StrictWF : Option Int → Option Int → Prop
  | some s, some e => s < e
  | _, _ => True

/-- Involution on overlap categories induced by swapping the two ranges:
`AContainsB` and `AInsideB` exchange, `AEndsInB` and `AStartsInB` exchange,
`AEqualsB` and `None` are fixed. -/
def swapCat : RangeOverlap → RangeOverlap
  | RangeOverlap.AContainsB => RangeOverlap.AInsideB
  | RangeOverlap.AInsideB => RangeOverlap.AContainsB
  | RangeOverlap.AEndsInB => RangeOverlap.AStartsInB
  | RangeOverlap.AStartsInB => RangeOverlap.AEndsInB
  | RangeOverlap.AEqualsB => RangeOverlap.AEqualsB
  | RangeOverlap.None => RangeOverlap.None

/-- Transcription of the ordered branch list of the spec (section 4.1),
parameterized by the inclusivity mode; written from the spec's words, to be
compared with the source classifiers. -/
def spec_closed_classify (inclusive : Bool) (a_start a_end b_start b_end : Int) :
    RangeOverlap :=
  if a_start = b_start ∧ a_end = b_end then
    RangeOverlap.AEqualsB
  else if a_start ≤ b_start ∧ a_end ≥ b_end then
    RangeOverlap.AContainsB
  else if a_start < b_start ∧
      (if inclusive then a_end ≥ b_start else a_end > b_start) ∧ a_end ≤ b_end then
    RangeOverlap.AEndsInB
  else if a_start > b_start ∧
      (if inclusive then a_start ≤ b_end else a_start < b_end) ∧ a_end > b_end then
    RangeOverlap.AStartsInB
  else if a_start ≥ b_end ∨ b_start ≥ a_end then
    RangeOverlap.None
  else
    RangeOverlap.AInsideB

/-- Claim C4: for all four finite values and each inclusivity mode, the
closed-range classifier returns the category selected by exactly the six
ordered branches of section 4.1 of the spec (here transcribed as
`spec_closed_classify`). -/
theorem c4_closed_branch_spec (a_start a_end b_start b_end : Int) :
    excl_classify a_start a_end b_start b_end =
      spec_closed_classify false a_start a_end b_start b_end ∧
    incl_classify a_start a_end b_start b_end =
      spec_closed_classify true a_start a_end b_start b_end :=
  ⟨rfl, rfl⟩

/-- Claim C5: `classify_any` with all four bounds present returns exactly the
same category as the corresponding closed-range classifier applied to the
unwrapped values (`excl_classify` for exclusive, `incl_classify` for
inclusive). -/
theorem c5_classify_any_closed_degeneracy (sa ea sb eb : Int) :
    classify_any (some sa) (some ea) (some sb) (some eb) false =
      excl_classify sa ea sb eb ∧
    classify_any (some sa) (some ea) (some sb) (some eb) true =
      incl_classify sa ea sb eb :=
  ⟨rfl, rfl⟩

/-- Claim C7: when A has only an end and B has only a start, classification is
decided by a single comparison of `ea` against `sb`: exclusive mode returns
`None` when `ea ≤ sb` and `AEndsInB` otherwise; inclusive mode returns `None`
when `ea < sb` and `AEndsInB` otherwise. -/
theorem c7_end_vs_start_single_comparison (ea sb : Int) :
    classify_any none (some ea) (some sb) none false =
      (if ea ≤ sb then RangeOverlap.None else RangeOverlap.AEndsInB) ∧
    classify_any none (some ea) (some sb) none true =
      (if ea < sb then RangeOverlap.None else RangeOverlap.AEndsInB) :=
  ⟨rfl, rfl⟩

/-- Claim C8: when both ranges have only an end, `classify_any` compares the
two ends directly (equal ⇒ `AEqualsB`, A's end smaller ⇒ `AInsideB`, larger ⇒
`AContainsB`); symmetrically, when both have only a start, it compares the two
starts (equal ⇒ `AEqualsB`, A's start smaller ⇒ `AContainsB`, larger ⇒
`AInsideB`).  Both inclusivity modes agree. -/
theorem c8_only_ends_only_starts (v w : Int) (inclusive : Bool) :
    classify_any none (some v) none (some w) inclusive =
      (if v = w then RangeOverlap.AEqualsB
       else if v < w then RangeOverlap.AInsideB
       else RangeOverlap.AContainsB) ∧
    classify_any (some v) none (some w) none inclusive =
      (if v = w then RangeOverlap.AEqualsB
       else if v < w then RangeOverlap.AContainsB
       else RangeOverlap.AInsideB) := by
  cases inclusive <;> exact ⟨rfl, rfl⟩

/-- Claim C10: `classify_any` returns `AEqualsB` exactly when the two ranges
have the same bound-presence shape and equal present bounds, i.e. when the
`Option`-valued starts coincide and the `Option`-valued ends coincide; ranges
of different shapes are never classified `AEqualsB`. -/
theorem c10_aequalsb_iff_same_bounds (a_start a_end b_start b_end : Option Int)
    (inclusive : Bool) :
    classify_any a_start a_end b_start b_end inclusive = RangeOverlap.AEqualsB ↔
      a_start = b_start ∧ a_end = b_end := by
  rcases a_start with _ | sa <;> rcases a_end with _ | ea <;>
    rcases b_start with _ | sb <;> rcases b_end with _ | eb <;>
    cases inclusive <;>
    simp only [classify_any, excl_classify, incl_classify] <;>
    (try split_ifs) <;> simp_all

/-- Helper: `has_overlap` is `true` exactly on non-`None` categories. -/
lemma has_overlap_eq_true_iff (c : RangeOverlap) :
    c.has_overlap = true ↔ c ≠ RangeOverlap.None := by
  cases c <;> simp [RangeOverlap.has_overlap]

/-- Helper: two half-open integer intervals share a point exactly when each
start is strictly below both ends. -/
lemma exists_shared_excl_iff (s1 e1 s2 e2 : Int) :
    (∃ x : Int, (s1 ≤ x ∧ x < e1) ∧ (s2 ≤ x ∧ x < e2)) ↔
      s1 < e2 ∧ s2 < e1 ∧ s1 < e1 ∧ s2 < e2 := by
  constructor
  · rintro ⟨x, ⟨h1, h2⟩, h3, h4⟩
    omega
  · rintro ⟨h1, h2, h3, h4⟩
    rcases le_total s1 s2 with h | h
    · exact ⟨s2, ⟨h, h2⟩, le_refl _, h4⟩
    · exact ⟨s1, ⟨le_refl _, h3⟩, h, h1⟩

/-- Helper: two closed integer intervals share a point exactly when each start
is at most both ends. -/
lemma exists_shared_incl_iff (s1 e1 s2 e2 : Int) :
    (∃ x : Int, (s1 ≤ x ∧ x ≤ e1) ∧ (s2 ≤ x ∧ x ≤ e2)) ↔
      s1 ≤ e2 ∧ s2 ≤ e1 ∧ s1 ≤ e1 ∧ s2 ≤ e2 := by
  constructor
  · rintro ⟨x, ⟨h1, h2⟩, h3, h4⟩
    omega
  · rintro ⟨h1, h2, h3, h4⟩
    rcases le_total s1 s2 with h | h
    · exact ⟨s2, ⟨h, h2⟩, le_refl _, h4⟩
    · exact ⟨s1, ⟨le_refl _, h3⟩, h, h1⟩

/-- Claim C1 (amended): for closed ranges with strictly ordered bounds
(`a_start < a_end` and `b_start < b_end`), each classifier returns `None`
exactly when no point is shared between A and B, where the points of a range
are `start ≤ x < end` in exclusive mode and `start ≤ x ≤ end` in inclusive
mode; equivalently, `has_overlap` on the result is `true` exactly when some
point lies in both ranges.  (The original claim, over all well-formed ranges
with `start ≤ end`, fails on degenerate ranges; see the counterexample.) -/
theorem c1_none_iff_no_shared_point (a_start a_end b_start b_end : Int)
    (ha : a_start < a_end) (hb : b_start < b_end) :
    (excl_classify a_start a_end b_start b_end = RangeOverlap.None ↔
      ¬ ∃ x : Int, (a_start ≤ x ∧ x < a_end) ∧ (b_start ≤ x ∧ x < b_end)) ∧
    ((excl_classify a_start a_end b_start b_end).has_overlap = true ↔
      ∃ x : Int, (a_start ≤ x ∧ x < a_end) ∧ (b_start ≤ x ∧ x < b_end)) ∧
    (incl_classify a_start a_end b_start b_end = RangeOverlap.None ↔
      ¬ ∃ x : Int, (a_start ≤ x ∧ x ≤ a_end) ∧ (b_start ≤ x ∧ x ≤ b_end)) ∧
    ((incl_classify a_start a_end b_start b_end).has_overlap = true ↔
      ∃ x : Int, (a_start ≤ x ∧ x ≤ a_end) ∧ (b_start ≤ x ∧ x ≤ b_end)) := by
  simp only [has_overlap_eq_true_iff, exists_shared_excl_iff, exists_shared_incl_iff]
  unfold excl_classify incl_classify
  split_ifs <;> simp_all <;> omega

/-- Claim C1 counterexample: the ranges A = (5,5) and B = (1,5) are both
well-formed (`start ≤ end`), the point 5 lies in both in inclusive mode, yet
`incl_classify` returns `None`; so over merely well-formed ranges, `None` is
not equivalent to sharing no point. -/
theorem c1_counterexample :
    (5 : Int) ≤ 5 ∧ (1 : Int) ≤ 5 ∧
    ¬ (incl_classify 5 5 1 5 = RangeOverlap.None ↔
        ¬ ∃ x : Int, ((5 : Int) ≤ x ∧ x ≤ 5) ∧ ((1 : Int) ≤ x ∧ x ≤ 5)) := by
  refine ⟨by decide, by decide, fun h => ?_⟩
  exact (h.mp (by decide)) ⟨5, by omega⟩

/-- Claim C1 witness: instantiating the amended theorem at the disjoint
ranges (1,5) and (20,30) in exclusive mode. -/
theorem c1_witness : excl_classify (1 : Int) 5 20 30 = RangeOverlap.None :=
  ((c1_none_iff_no_shared_point 1 5 20 30 (by decide) (by decide)).1).mpr
    (by rintro ⟨x, ⟨h1, h2⟩, h3, h4⟩; omega)

/-- Claim C2: on well-formed closed ranges, whenever the exclusive classifier
returns a category other than `None`, the inclusive classifier agrees; and
when the exclusive classifier returns `None`, the inclusive one returns
either `None` or one of the touching-overlap categories `AEndsInB` /
`AStartsInB`; in particular `excl_classify 1 5 5 10 = None` while
`incl_classify 1 5 5 10 = AEndsInB`. -/
theorem c2_inclusivity_monotonicity (a_start a_end b_start b_end : Int)
    (ha : a_start ≤ a_end) (hb : b_start ≤ b_end) :
    (excl_classify a_start a_end b_start b_end ≠ RangeOverlap.None →
      incl_classify a_start a_end b_start b_end =
        excl_classify a_start a_end b_start b_end) ∧
    (excl_classify a_start a_end b_start b_end = RangeOverlap.None →
      incl_classify a_start a_end b_start b_end = RangeOverlap.None ∨
      incl_classify a_start a_end b_start b_end = RangeOverlap.AEndsInB ∨
      incl_classify a_start a_end b_start b_end = RangeOverlap.AStartsInB) ∧
    excl_classify 1 5 5 10 = RangeOverlap.None ∧
    incl_classify 1 5 5 10 = RangeOverlap.AEndsInB := by
  refine ⟨?_, ?_, by decide, by decide⟩ <;>
    · unfold excl_classify incl_classify
      split_ifs <;> simp_all <;> omega

/-- Claim C2 witness: instantiating the theorem at ranges (1,10) and (5,20),
where the exclusive classifier returns `AEndsInB` (not `None`), so the
inclusive classifier agrees with it. -/
theorem c2_witness : incl_classify (1 : Int) 10 5 20 = excl_classify 1 10 5 20 :=
  (c2_inclusivity_monotonicity 1 10 5 20 (by decide) (by decide)).1 (by decide)

/-- Helper: swapping the two closed ranges turns the exclusive classification
into its dual category, for non-degenerate ranges. -/
lemma excl_classify_swap (sa ea sb eb : Int) (h1 : sa < ea) (h2 : sb < eb) :
    excl_classify sb eb sa ea = swapCat (excl_classify sa ea sb eb) := by
  unfold excl_classify
  split_ifs <;> simp only [swapCat] <;> first | rfl | omega

/-- Helper: swapping the two closed ranges turns the inclusive classification
into its dual category, for non-degenerate ranges. -/
lemma incl_classify_swap (sa ea sb eb : Int) (h1 : sa < ea) (h2 : sb < eb) :
    incl_classify sb eb sa ea = swapCat (incl_classify sa ea sb eb) := by
  unfold incl_classify
  split_ifs <;> simp only [swapCat] <;> first | rfl | omega

set_option maxHeartbeats 1000000 in
/-- Helper: for strictly well-formed ranges of any presence shape,
`classify_any` with the arguments swapped returns the dual category. -/
lemma classify_any_swap (a_start a_end b_start b_end : Option Int) (inclusive : Bool)
    (ha : StrictWF a_start a_end) (hb : StrictWF b_start b_end) :
    classify_any b_start b_end a_start a_end inclusive =
      swapCat (classify_any a_start a_end b_start b_end inclusive) := by
  rcases a_start with _ | sa <;> rcases a_end with _ | ea <;>
    rcases b_start with _ | sb <;> rcases b_end with _ | eb <;>
    simp only [StrictWF] at ha hb <;> cases inclusive <;>
    first
      | exact excl_classify_swap sa ea sb eb ha hb
      | exact incl_classify_swap sa ea sb eb ha hb
      | (simp only [classify_any] <;> (try split_ifs) <;>
          simp only [swapCat] <;> first | rfl | omega)

/-- Claim C3 (amended): for strictly well-formed ranges (when both bounds of
a range are present, its start is strictly below its end) of any presence
shape and both inclusivity modes, `classify_any` satisfies the swap duality:
`AContainsB` for (A,B) implies `AInsideB` for (B,A) and vice versa,
`AEndsInB` for (A,B) implies `AStartsInB` for (B,A), and `AEqualsB` and
`None` are symmetric under swap.  (The original claim, over all well-formed
ranges with `start ≤ end`, fails on degenerate ranges; see the
counterexample.) -/
theorem c3_swap_duality (a_start a_end b_start b_end : Option Int) (inclusive : Bool)
    (ha : StrictWF a_start a_end) (hb : StrictWF b_start b_end) :
    (classify_any a_start a_end b_start b_end inclusive = RangeOverlap.AContainsB →
      classify_any b_start b_end a_start a_end inclusive = RangeOverlap.AInsideB) ∧
    (classify_any a_start a_end b_start b_end inclusive = RangeOverlap.AInsideB →
      classify_any b_start b_end a_start a_end inclusive = RangeOverlap.AContainsB) ∧
    (classify_any a_start a_end b_start b_end inclusive = RangeOverlap.AEndsInB →
      classify_any b_start b_end a_start a_end inclusive = RangeOverlap.AStartsInB) ∧
    (classify_any a_start a_end b_start b_end inclusive = RangeOverlap.AEqualsB ↔
      classify_any b_start b_end a_start a_end inclusive = RangeOverlap.AEqualsB) ∧
    (classify_any a_start a_end b_start b_end inclusive = RangeOverlap.None ↔
      classify_any b_start b_end a_start a_end inclusive = RangeOverlap.None) := by
  rw [classify_any_swap a_start a_end b_start b_end inclusive ha hb]
  cases classify_any a_start a_end b_start b_end inclusive <;> simp [swapCat]

/-- Claim C3 counterexample: A = (1,10) and B = (10,10) are well-formed
(`start ≤ end`), and `classify_any` classifies (A,B) as `AContainsB`, but the
swapped pair (B,A) is classified `None` rather than `AInsideB`; so the swap
duality fails over merely well-formed ranges. -/
theorem c3_counterexample :
    (1 : Int) ≤ 10 ∧ (10 : Int) ≤ 10 ∧
    classify_any (some 1) (some 10) (some 10) (some 10) false =
      RangeOverlap.AContainsB ∧
    classify_any (some 10) (some 10) (some 1) (some 10) false =
      RangeOverlap.None := by
  decide

/-- Claim C3 witness: instantiating the amended theorem at A = (1,10),
B = (2,3) in exclusive mode, where (A,B) is `AContainsB`, yields `AInsideB`
for the swapped pair. -/
theorem c3_witness :
    classify_any (some 2) (some 3) (some 1) (some 10) false = RangeOverlap.AInsideB :=
  (c3_swap_duality (some 1) (some 10) (some 2) (some 3) false
    (by norm_num [StrictWF]) (by norm_num [StrictWF])).1 (by decide)

/-- Claim C6: classifying any range against itself (same option-valued bounds
on both sides, any presence shape including fully open) yields `AEqualsB` in
both inclusivity modes, for every well-formed range. -/
theorem c6_reflexivity (a_start a_end : Option Int) (inclusive : Bool)
    (h : WellFormed a_start a_end) :
    classify_any a_start a_end a_start a_end inclusive = RangeOverlap.AEqualsB := by
  rcases a_start with _ | s <;> rcases a_end with _ | e <;> cases inclusive <;>
    simp [classify_any, excl_classify, incl_classify]

/-- Claim C6 witness: the closed range (1,5) classified against itself. -/
theorem c6_witness :
    classify_any (some 1) (some 5) (some 1) (some 5) false = RangeOverlap.AEqualsB :=
  c6_reflexivity (some 1) (some 5) false (by norm_num [WellFormed])

/-- Claim C9: `classify_any` and the closed classifiers are total and
deterministic over all inputs, including malformed ranges: every call returns
one of the six categories (there is no failure outcome in the result type),
and equal inputs always yield the same category. -/
theorem c9_totality_determinism (a_start a_end b_start b_end : Option Int)
    (x y z w : Int) (inclusive : Bool) :
    (classify_any a_start a_end b_start b_end inclusive = RangeOverlap.AContainsB ∨
     classify_any a_start a_end b_start b_end inclusive = RangeOverlap.AInsideB ∨
     classify_any a_start a_end b_start b_end inclusive = RangeOverlap.AEndsInB ∨
     classify_any a_start a_end b_start b_end inclusive = RangeOverlap.AStartsInB ∨
     classify_any a_start a_end b_start b_end inclusive = RangeOverlap.AEqualsB ∨
     classify_any a_start a_end b_start b_end inclusive = RangeOverlap.None) ∧
    (excl_classify x y z w = RangeOverlap.AContainsB ∨
     excl_classify x y z w = RangeOverlap.AInsideB ∨
     excl_classify x y z w = RangeOverlap.AEndsInB ∨
     excl_classify x y z w = RangeOverlap.AStartsInB ∨
     excl_classify x y z w = RangeOverlap.AEqualsB ∨
     excl_classify x y z w = RangeOverlap.None) ∧
    (incl_classify x y z w = RangeOverlap.AContainsB ∨
     incl_classify x y z w = RangeOverlap.AInsideB ∨
     incl_classify x y z w = RangeOverlap.AEndsInB ∨
     incl_classify x y z w = RangeOverlap.AStartsInB ∨
     incl_classify x y z w = RangeOverlap.AEqualsB ∨
     incl_classify x y z w = RangeOverlap.None) ∧
    (∀ as2 ae2 bs2 be2 : Option Int, ∀ i2 : Bool,
      a_start = as2 → a_end = ae2 → b_start = bs2 → b_end = be2 → inclusive = i2 →
      classify_any a_start a_end b_start b_end inclusive =
        classify_any as2 ae2 bs2 be2 i2) := by
  refine ⟨?_, ?_, ?_, ?_⟩
  · rcases h : classify_any a_start a_end b_start b_end inclusive <;> simp [h]
  · rcases h : excl_classify x y z w <;> simp [h]
  · rcases h : incl_classify x y z w <;> simp [h]
  · intro as2 ae2 bs2 be2 i2 h1 h2 h3 h4 h5
    rw [h1, h2, h3, h4, h5]

/-- Claim C9 witness: instantiating the theorem at the half-open range (1,2)
versus the fully open range, exclusive mode. -/
theorem c9_witness :
    (classify_any (some 1) (some 2) none none false = RangeOverlap.AContainsB ∨
     classify_any (some 1) (some 2) none none false = RangeOverlap.AInsideB ∨
     classify_any (some 1) (some 2) none none false = RangeOverlap.AEndsInB ∨
     classify_any (some 1) (some 2) none none false = RangeOverlap.AStartsInB ∨
     classify_any (some 1) (some 2) none none false = RangeOverlap.AEqualsB ∨
     classify_any (some 1) (some 2) none none false = RangeOverlap.None) ∧
    classify_any (some 1) (some 2) none none false =
      classify_any (some 1) (some 2) none none false :=
  ⟨(c9_totality_determinism (some 1) (some 2) none none 0 0 0 0 false).1,
   (c9_totality_determinism (some 1) (some 2) none none 0 0 0 0 false).2.2.2
     (some 1) (some 2) none none false rfl rfl rfl rfl rfl⟩
